import Mathlib

/-
Verification of the ragx-backend RAG pipeline against its specification.

The Python sources are shallowly embedded: pure functions become Lean
functions, the MongoDB chat_sessions collection and the Pinecone index
become explicit state values, and external collaborators (the
sentence-transformers model, the Pinecone ANN search, the LLM backend)
are parameters of the embedded functions.  Machine floats from the
sources are modelled as exact rationals.
-/

/- ===== Python string primitives =====
   Semantics of the `str.replace("\n", " ")` and `str.strip()` calls in
   src/app/rag/embeddings.py.  `str.strip()` removes leading/trailing
   whitespace; we model the ASCII whitespace class. -/

def pyIsSpace (c : Char) : Bool :=
  c = ' ' || c = '\t' || c = '\n' || c = '\r' || c = '\x0b' || c = '\x0c'

/-- Python `s.replace("\n", " ")`: a single-character pattern replace is a
character map. -/
def pyReplaceNewlines (s : String) : String :=
  ⟨s.data.map (fun c => if c = '\n' then ' ' else c)⟩

/-- Python `s.strip()`. -/
def pyStrip (s : String) : String :=
  ⟨((s.data.dropWhile pyIsSpace).reverse.dropWhile pyIsSpace).reverse⟩

/-- The normalization `text.replace("\n", " ").strip()` performed by both
embedding entry points (src/app/rag/embeddings.py lines 34 and 53). -/
def cleanText (s : String) : String := pyStrip (pyReplaceNewlines s)

/- ===== EmbeddingService (src/app/rag/embeddings.py) =====
   The sentence-transformers model is an external collaborator; it enters as
   the `encode` parameter.  Batch encoding of a list of texts applies the
   model to each text, in order. -/

/-- Model of `EmbeddingService.generate_embedding` (src/app/rag/embeddings.py 24-40):
normalize, then raise `ValueError` on empty normalized text, else encode. -/
def generate_embedding {V : Type} (encode : String → V) (text : String) :
    Except String V :=
  let text := cleanText text
  if text = "" then Except.error "Cannot generate embedding for empty text"
  else Except.ok (encode text)

/-- Model of `EmbeddingService.generate_embeddings` (src/app/rag/embeddings.py 42-60):
normalize every entry, substitute the single-space placeholder for empty
normalized entries, return empty on an empty cleaned list, else encode all. -/
def generate_embeddings {V : Type} (encode : String → V) (texts : List String) :
    List V :=
  let cleaned_texts := texts.map cleanText
  let cleaned_texts := cleaned_texts.map (fun t => if t = "" then " " else t)
  if cleaned_texts = [] then []
  else cleaned_texts.map encode

/-- The batch embed is pointwise: one encoded vector per input text, in input
order, with the single-space placeholder substituted for empty normalized
entries. -/
theorem generate_embeddings_eq_map {V : Type} (encode : String → V)
    (ts : List String) :
    generate_embeddings encode ts =
      ts.map (fun s => encode (if cleanText s = "" then " " else cleanText s)) := by
  cases ts with
  | nil => rfl
  | cons a l =>
    simp only [generate_embeddings, List.map_map, List.map_cons]
    simp [Function.comp]

/-- C6: the single-text embed normalizes (newlines to spaces, trim) and fails
with the invalid-input error exactly when the normalized text is empty; the
batch embed never fails, encoding a single-space placeholder in place of each
empty normalized entry, preserving batch positions. -/
theorem claim_C6_embed_empty_asymmetry {V : Type} (encode : String → V)
    (t : String) (ts : List String) :
    (cleanText t = "" →
      generate_embedding encode t =
        Except.error "Cannot generate embedding for empty text") ∧
    (cleanText t ≠ "" →
      generate_embedding encode t = Except.ok (encode (cleanText t))) ∧
    generate_embeddings encode ts =
      ts.map (fun s => encode (if cleanText s = "" then " " else cleanText s)) := by
  exact ⟨fun h => by simp [generate_embedding, h],
    fun h => by simp [generate_embedding, h],
    generate_embeddings_eq_map encode ts⟩

theorem claim_C6_embed_empty_asymmetry_witness :
    generate_embedding (fun s : String => s.length) " \n " =
      Except.error "Cannot generate embedding for empty text" ∧
    generate_embedding (fun s : String => s.length) "a\nb" =
      Except.ok ((fun s : String => s.length) (cleanText "a\nb")) ∧
    generate_embeddings (fun s : String => s.length) [" \n ", "a\nb"] =
      [" \n ", "a\nb"].map
        (fun s => (fun s : String => s.length)
          (if cleanText s = "" then " " else cleanText s)) := by
  have h := claim_C6_embed_empty_asymmetry (fun s : String => s.length) " \n " [" \n ", "a\nb"]
  have h2 := claim_C6_embed_empty_asymmetry (fun s : String => s.length) "a\nb" [" \n ", "a\nb"]
  exact ⟨h.1 (by decide), h2.2.1 (by decide), h.2.2⟩

/-- C7 as stated is false: for the non-empty text `" "` (whitespace only) the
single-text embed fails while the batch embed of the singleton succeeds on the
placeholder, so `embed_batch([t])[0] = embed(t)` does not hold for every
non-empty `t`. -/
theorem claim_C7_counterexample :
    ¬ ∀ (t : String), t ≠ "" →
        ∃ v, (generate_embeddings (fun s : String => s.length) [t])[0]? = some v ∧
          generate_embedding (fun s : String => s.length) t = Except.ok v := by
  intro h
  obtain ⟨v, _, hemb⟩ := h " " (by decide)
  have herr : generate_embedding (fun s : String => s.length) " " =
      Except.error "Cannot generate embedding for empty text" := by
    have hc : cleanText " " = "" := by decide
    simp [generate_embedding, hc]
  rw [herr] at hemb
  exact Except.noConfusion hemb

/-- C7 amended: the batch embed returns one vector per input text in input
order (same length, pointwise over the input), and the singleton batch law
holds for every text whose whitespace-normalized form is non-empty. -/
theorem claim_C7_batch_singleton {V : Type} (encode : String → V)
    (ts : List String) (t : String) (h : cleanText t ≠ "") :
    (generate_embeddings encode ts).length = ts.length ∧
    generate_embeddings encode ts =
      ts.map (fun s => encode (if cleanText s = "" then " " else cleanText s)) ∧
    ∃ v, (generate_embeddings encode [t])[0]? = some v ∧
      generate_embedding encode t = Except.ok v := by
  have hmap := generate_embeddings_eq_map encode ts
  refine ⟨by rw [hmap]; simp, hmap, ⟨encode (cleanText t), ?_, ?_⟩⟩
  · simp [generate_embeddings, h]
  · simp [generate_embedding, h]

theorem claim_C7_batch_singleton_witness :
    (generate_embeddings (fun s : String => s.length) ["x", "y z"]).length = 2 ∧
    generate_embeddings (fun s : String => s.length) ["x", "y z"] =
      ["x", "y z"].map (fun s => (fun s : String => s.length)
        (if cleanText s = "" then " " else cleanText s)) ∧
    ∃ v, (generate_embeddings (fun s : String => s.length) ["ab"])[0]? = some v ∧
      generate_embedding (fun s : String => s.length) "ab" = Except.ok v := by
  exact claim_C7_batch_singleton (fun s : String => s.length) ["x", "y z"] "ab" (by decide)

/- ===== PineconeService (src/app/services/vector_db.py) =====
   The Pinecone index is modelled as an association list from namespace name
   to the records stored in that namespace; the namespace-scoped SDK
   operations (upsert by id, delete, per-namespace stats) follow their
   documented semantics, and the ANN search itself is an external parameter.
   Vector payloads are an opaque type `V`; of the metadata keys the service
   writes, the ones the query pipeline reads back are modelled. -/

structure Metadata where
  filename : Option String
  source : Option String
  text : Option String
deriving DecidableEq

instance : Inhabited Metadata := ⟨⟨none, none, none⟩⟩

structure VecRecord (V : Type) where
  id : String
  values : V
  metadata : Metadata
deriving DecidableEq

abbrev PineIndex (V : Type) := List (String × List (VecRecord V))

def nsLookup {V : Type} : PineIndex V → String → List (VecRecord V)
  | [], _ => []
  | p :: ps, ns => if p.1 = ns then p.2 else nsLookup ps ns

def nsUpdate {V : Type} :
    PineIndex V → String → (List (VecRecord V) → List (VecRecord V)) → PineIndex V
  | [], ns, f => [(ns, f [])]
  | p :: ps, ns, f => if p.1 = ns then (p.1, f p.2) :: ps else p :: nsUpdate ps ns f

theorem nsLookup_nsUpdate_same {V : Type} (idx : PineIndex V) (ns : String)
    (f : List (VecRecord V) → List (VecRecord V)) :
    nsLookup (nsUpdate idx ns f) ns = f (nsLookup idx ns) := by
  induction idx with
  | nil => simp [nsUpdate, nsLookup]
  | cons p ps ih =>
    by_cases h : p.1 = ns
    · simp [nsUpdate, nsLookup, h]
    · simp [nsUpdate, nsLookup, h, ih]

theorem nsLookup_nsUpdate_ne {V : Type} (idx : PineIndex V) (ns ns2 : String)
    (f : List (VecRecord V) → List (VecRecord V)) (h : ns2 ≠ ns) :
    nsLookup (nsUpdate idx ns f) ns2 = nsLookup idx ns2 := by
  induction idx with
  | nil => simp [nsUpdate, nsLookup, if_neg (Ne.symm h)]
  | cons p ps ih =>
    by_cases hp : p.1 = ns
    · have hp2 : ¬ (p.1 = ns2) := fun hc => h (hc ▸ hp ▸ rfl)
      simp only [nsUpdate, if_pos hp, nsLookup]
      rw [if_neg (by rw [hp]; exact Ne.symm h), if_neg hp2]
    · simp only [nsUpdate, if_neg hp, nsLookup]
      by_cases hq : p.1 = ns2
      · rw [if_pos hq, if_pos hq]
      · rw [if_neg hq, if_neg hq, ih]

/-- Model of `PineconeService._get_user_namespace` (src/app/services/vector_db.py 46-48). -/
def get_user_namespace (user_id : String) : String := "user_" ++ user_id

/-- Pinecone upsert semantics within one namespace: a record replaces the
stored record with the same id, else it is appended. -/
def upsertRecord {V : Type} (rs : List (VecRecord V)) (r : VecRecord V) :
    List (VecRecord V) :=
  if rs.any (fun x => x.id == r.id) then rs.map (fun x => if x.id = r.id then r else x)
  else rs ++ [r]

/-- One `self.index.upsert(vectors=batch, namespace=namespace)` call. -/
def indexUpsert {V : Type} (ns : String) (batch : List (VecRecord V))
    (idx : PineIndex V) : PineIndex V :=
  nsUpdate idx ns (fun rs => batch.foldl upsertRecord rs)

/-- The slices `vectors[i:i + batch_size]` for
`i in range(0, len(vectors), batch_size)` (src/app/services/vector_db.py 71-72):
`range` iterates ceil(len/batch_size) times stepping by `batch_size`. -/
def pySliceBatches {α : Type} (batch_size : Nat) (l : List α) : List (List α) :=
  (List.range' 0 ((l.length + batch_size - 1) / batch_size) batch_size).map
    (fun i => (l.drop i).take batch_size)

theorem pySliceBatches_nil {α : Type} (bs : Nat) :
    pySliceBatches bs ([] : List α) = [] := by
  cases bs with
  | zero =>
    simp only [pySliceBatches, List.length_nil]
    norm_num
  | succ n =>
    simp only [pySliceBatches, List.length_nil]
    have h1 : (0 + (n + 1) - 1) = n := by omega
    rw [h1, Nat.div_eq_of_lt (by omega)]
    rfl

theorem pySliceBatches_cons {α : Type} (bs : Nat) (hbs : 0 < bs) (l : List α)
    (hl : l ≠ []) :
    pySliceBatches bs l = l.take bs :: pySliceBatches bs (l.drop bs) := by
  have hlen : 1 ≤ l.length := List.length_pos.mpr hl
  have hN : (l.length + bs - 1) / bs = (l.length - 1) / bs + 1 := by
    have h1 : l.length + bs - 1 = (l.length - 1) + bs := by omega
    rw [h1, Nat.add_div_right _ hbs]
  have hM : ((l.drop bs).length + bs - 1) / bs = (l.length - 1) / bs := by
    rw [List.length_drop]
    by_cases hc : l.length ≤ bs
    · have h1 : l.length - bs = 0 := by omega
      rw [h1]
      have h2 : (0 + bs - 1) = bs - 1 := by omega
      rw [h2, Nat.div_eq_of_lt (by omega), Nat.div_eq_of_lt (by omega)]
    · have h1 : l.length - bs + bs - 1 = (l.length - bs - 1) + bs := by omega
      have h2 : l.length - 1 = (l.length - bs - 1) + bs := by omega
      rw [h1, h2, Nat.add_div_right _ hbs]
  simp only [pySliceBatches]
  rw [hN, hM, List.range'_succ]
  simp only [List.map_cons, List.drop_zero]
  congr 1
  have aux : ∀ (M s : Nat),
      (List.range' (s + bs) M bs).map (fun i => (l.drop i).take bs) =
      (List.range' s M bs).map (fun i => ((l.drop bs).drop i).take bs) := by
    intro M
    induction M with
    | zero => intro s; rfl
    | succ M ih =>
      intro s
      rw [List.range'_succ, List.range'_succ, List.map_cons, List.map_cons]
      congr 1
      · rw [List.drop_drop]
        congr 2
        omega
      · exact ih (s + bs)
  simpa using aux ((l.length - 1) / bs) 0

theorem pySliceBatches_flatten {α : Type} (bs : Nat) (hbs : 0 < bs) (l : List α) :
    (pySliceBatches bs l).flatten = l := by
  have key : ∀ (n : Nat) (l : List α), l.length ≤ n →
      (pySliceBatches bs l).flatten = l := by
    intro n
    induction n with
    | zero =>
      intro l hl
      have hnil : l = [] := by cases l with | nil => rfl | cons a t => simp at hl
      subst hnil
      rw [pySliceBatches_nil]
      rfl
    | succ n ih =>
      intro l hl
      by_cases h : l = []
      · subst h; rw [pySliceBatches_nil]; rfl
      · rw [pySliceBatches_cons bs hbs l h, List.flatten_cons,
          ih (l.drop bs) (by
            rw [List.length_drop]
            have := List.length_pos.mpr h
            omega),
          List.take_append_drop]
  exact key l.length l le_rfl

theorem pySliceBatches_length_le {α : Type} (bs : Nat) (l : List α) :
    ∀ b ∈ pySliceBatches bs l, b.length ≤ bs := by
  intro b hb
  simp only [pySliceBatches, List.mem_map] at hb
  obtain ⟨i, _, rfl⟩ := hb
  rw [List.length_take]
  exact min_le_left _ _

/-- Model of `PineconeService.upsert_embeddings` (src/app/services/vector_db.py 50-77):
slice into batches, upsert each batch into the namespace of the user, accumulate
the total written. -/
def upsert_embeddings {V : Type} (user_id : String) (vectors : List (VecRecord V))
    (batch_size : Nat) (idx : PineIndex V) : Nat × PineIndex V :=
  let ns := get_user_namespace user_id
  let batches := pySliceBatches batch_size vectors
  (batches.foldl (fun total batch => total + batch.length) 0,
   batches.foldl (fun s batch => indexUpsert ns batch s) idx)

structure PineMatch where
  id : String
  score : ℚ
  metadata : Metadata
deriving DecidableEq

structure QueryResult where
  id : String
  score : ℚ
  metadata : Option Metadata
deriving DecidableEq

/-- Model of `PineconeService.query_embeddings` (src/app/services/vector_db.py 79-118).
The ANN `search` over the records of one namespace is the external SDK call; the
service hands it only the namespace of the caller and maps matches to result dicts,
dropping metadata unless `include_metadata`. -/
def query_embeddings {V : Type}
    (search : List (VecRecord V) → V → Nat → Option (Metadata → Bool) →
      Except String (List PineMatch))
    (user_id : String) (query_vector : V) (top_k : Nat)
    (filter : Option (Metadata → Bool)) (include_metadata : Bool)
    (idx : PineIndex V) : Except String (List QueryResult) := do
  let ns := get_user_namespace user_id
  let results ← search (nsLookup idx ns) query_vector top_k filter
  return results.map (fun m =>
    { id := m.id, score := m.score,
      metadata := if include_metadata then some m.metadata else none })

/-- Model of `PineconeService.delete_embeddings` (src/app/services/vector_db.py 120-154):
`if delete_all / elif ids / elif filter / else no-op`, all in the namespace of the
user, returning success. -/
def delete_embeddings {V : Type} (user_id : String) (ids : Option (List String))
    (delete_all : Bool) (filter : Option (Metadata → Bool)) (idx : PineIndex V) :
    Bool × PineIndex V :=
  let ns := get_user_namespace user_id
  if delete_all then (true, nsUpdate idx ns (fun _ => []))
  else if (ids.getD []) ≠ [] then
    (true, nsUpdate idx ns
      (fun rs => rs.filter (fun r => !((ids.getD []).contains r.id))))
  else match filter with
    | some p => (true, nsUpdate idx ns (fun rs => rs.filter (fun r => !(p r.metadata))))
    | none => (true, idx)

structure NamespaceStats where
  nsName : String
  vector_count : Nat
  total_index_vectors : Nat
deriving DecidableEq

/-- Model of `index.describe_index_stats()`: per-namespace vector counts plus the total
vector count across all namespaces. -/
def describe_index_stats {V : Type} (idx : PineIndex V) : List (String × Nat) × Nat :=
  (idx.map (fun p => (p.1, p.2.length)), (idx.map (fun p => p.2.length)).sum)

/-- Model of `PineconeService.get_namespace_stats` (src/app/services/vector_db.py
156-167): the namespace count of the user (0 if absent) and the global total. -/
def get_namespace_stats {V : Type} (user_id : String) (idx : PineIndex V) :
    NamespaceStats :=
  let ns := get_user_namespace user_id
  let stats := describe_index_stats idx
  { nsName := ns,
    vector_count := (((stats.1).find? (fun p => p.1 == ns)).map (fun p => p.2)).getD 0,
    total_index_vectors := stats.2 }

theorem foldl_indexUpsert_ne {V : Type} (ns ns2 : String) (h : ns2 ≠ ns)
    (batches : List (List (VecRecord V))) (idx : PineIndex V) :
    nsLookup (batches.foldl (fun s b => indexUpsert ns b s) idx) ns2 =
      nsLookup idx ns2 := by
  induction batches generalizing idx with
  | nil => rfl
  | cons b t ih =>
    simp only [List.foldl_cons]
    rw [ih]
    exact nsLookup_nsUpdate_ne idx ns ns2 _ h

theorem foldl_indexUpsert_same {V : Type} (ns : String)
    (batches : List (List (VecRecord V))) (idx : PineIndex V) :
    nsLookup (batches.foldl (fun s b => indexUpsert ns b s) idx) ns =
      batches.foldl (fun rs b => b.foldl upsertRecord rs) (nsLookup idx ns) := by
  induction batches generalizing idx with
  | nil => rfl
  | cons b t ih =>
    simp only [List.foldl_cons]
    rw [ih, indexUpsert, nsLookup_nsUpdate_same]

theorem stats_vector_count_eq {V : Type} (idx : PineIndex V) (ns : String) :
    ((((describe_index_stats idx).1).find? (fun p => p.1 == ns)).map
      (fun p => p.2)).getD 0 = (nsLookup idx ns).length := by
  induction idx with
  | nil => rfl
  | cons p ps ih =>
    simp only [describe_index_stats, List.map_cons] at *
    by_cases h : p.1 = ns
    · rw [List.find?_cons_of_pos _ (by simpa using h)]
      simp [nsLookup, h]
    · rw [List.find?_cons_of_neg _ (by simpa using h)]
      simpa [nsLookup, h] using ih

/-- C8: the upsert writes the input vectors in consecutive order-preserving
batches whose concatenation is the input, each batch at most the fixed size
100, applying them to the namespace of the user batch-by-batch in order, and the
returned count equals the number of input vectors. -/
theorem claim_C8_upsert_batches {V : Type} (user_id : String)
    (vectors : List (VecRecord V)) (idx : PineIndex V) :
    (upsert_embeddings user_id vectors 100 idx).1 = vectors.length ∧
    (pySliceBatches 100 vectors).flatten = vectors ∧
    (∀ b ∈ pySliceBatches 100 vectors, b.length ≤ 100) ∧
    (upsert_embeddings user_id vectors 100 idx).2 =
      (pySliceBatches 100 vectors).foldl
        (fun s batch => indexUpsert (get_user_namespace user_id) batch s) idx := by
  refine ⟨?_, pySliceBatches_flatten 100 (by omega) vectors,
    pySliceBatches_length_le 100 vectors, rfl⟩
  have hfold : ∀ (bs : List (List (VecRecord V))) (a : Nat),
      bs.foldl (fun total batch => total + batch.length) a = a + bs.flatten.length := by
    intro bs
    induction bs with
    | nil => intro a; simp
    | cons b t ih =>
      intro a
      simp [List.flatten_cons, ih, Nat.add_assoc]
  show (pySliceBatches 100 vectors).foldl (fun total batch => total + batch.length) 0
      = vectors.length
  rw [hfold, pySliceBatches_flatten 100 (by omega) vectors]
  omega

theorem claim_C8_upsert_batches_witness :
    (upsert_embeddings "u1"
      [⟨"a", (), default⟩, ⟨"b", (), default⟩] 100 ([] : PineIndex Unit)).1 = 2 ∧
    ([(⟨"a", (), default⟩ : VecRecord Unit), ⟨"b", (), default⟩]).length ≤ 100 := by
  have h := claim_C8_upsert_batches "u1"
    [(⟨"a", (), default⟩ : VecRecord Unit), ⟨"b", (), default⟩] ([] : PineIndex Unit)
  exact ⟨by rw [h.1]; rfl, h.2.2.1 _ (by decide)⟩

/-- C3 as stated is false for the stats operation: `get_namespace_stats`
reports `total_index_vectors` aggregated across every namespace, so its output
also reads state outside `user_<id>`: two index states that agree on the
namespace of the caller yield different stats when the namespace of another
user differs. -/
theorem claim_C3_counterexample :
    ¬ ∀ (idx1 idx2 : PineIndex Unit) (u : String),
        nsLookup idx1 (get_user_namespace u) = nsLookup idx2 (get_user_namespace u) →
        get_namespace_stats u idx1 = get_namespace_stats u idx2 := by
  intro h
  have hc := h [("user_u", [])]
    [("user_u", []), ("user_v", [⟨"v1", (), default⟩])] "u" (by decide)
  exact absurd hc (by decide)

theorem delete_embeddings_snd_all {V : Type} (u : String)
    (ids : Option (List String)) (filter : Option (Metadata → Bool))
    (idx : PineIndex V) :
    (delete_embeddings u ids true filter idx).2 =
      nsUpdate idx (get_user_namespace u) (fun _ => []) := rfl

theorem delete_embeddings_snd_ids {V : Type} (u : String)
    (ids : Option (List String)) (filter : Option (Metadata → Bool))
    (idx : PineIndex V) (hids : ¬ (ids.getD []) = []) :
    (delete_embeddings u ids false filter idx).2 =
      nsUpdate idx (get_user_namespace u)
        (fun rs => rs.filter (fun r => !((ids.getD []).contains r.id))) := by
  simp [delete_embeddings, hids]

theorem delete_embeddings_snd_filter {V : Type} (u : String)
    (ids : Option (List String)) (p : Metadata → Bool)
    (idx : PineIndex V) (hids : (ids.getD []) = []) :
    (delete_embeddings u ids false (some p) idx).2 =
      nsUpdate idx (get_user_namespace u)
        (fun rs => rs.filter (fun r => !(p r.metadata))) := by
  simp [delete_embeddings, hids]

theorem delete_embeddings_snd_noop {V : Type} (u : String)
    (ids : Option (List String)) (idx : PineIndex V)
    (hids : (ids.getD []) = []) :
    (delete_embeddings u ids false none idx).2 = idx := by
  simp [delete_embeddings, hids]

/-- C3 amended: upsert (at the fixed batch size 100), query and delete read
and write only the namespace `user_<id>`: every other namespace is left
untouched and their behaviour depends only on the content of the namespace
of the caller;
stats writes nothing and reads no vector data outside the namespace — its
namespace-local count comes from `user_<id>` alone, while its
`total_index_vectors` field is, by design, the per-namespace counts summed
over the whole index. -/
theorem claim_C3_namespace_isolation {V : Type} (u ns2 : String)
    (hns : ns2 ≠ get_user_namespace u)
    (vectors : List (VecRecord V)) (idx idx1 idx2 : PineIndex V)
    (hagree : nsLookup idx1 (get_user_namespace u) = nsLookup idx2 (get_user_namespace u))
    (search : List (VecRecord V) → V → Nat → Option (Metadata → Bool) →
      Except String (List PineMatch))
    (qv : V) (top_k : Nat) (filter : Option (Metadata → Bool))
    (include_metadata : Bool) (ids : Option (List String)) (delete_all : Bool) :
    nsLookup (upsert_embeddings u vectors 100 idx).2 ns2 = nsLookup idx ns2 ∧
    nsLookup (delete_embeddings u ids delete_all filter idx).2 ns2 = nsLookup idx ns2 ∧
    query_embeddings search u qv top_k filter include_metadata idx1 =
      query_embeddings search u qv top_k filter include_metadata idx2 ∧
    nsLookup (upsert_embeddings u vectors 100 idx1).2 (get_user_namespace u) =
      nsLookup (upsert_embeddings u vectors 100 idx2).2 (get_user_namespace u) ∧
    nsLookup (delete_embeddings u ids delete_all filter idx1).2 (get_user_namespace u) =
      nsLookup (delete_embeddings u ids delete_all filter idx2).2 (get_user_namespace u) ∧
    (get_namespace_stats u idx).vector_count =
      (nsLookup idx (get_user_namespace u)).length ∧
    (get_namespace_stats u idx).total_index_vectors =
      (idx.map (fun p => p.2.length)).sum := by
  refine ⟨?_, ?_, ?_, ?_, ?_, stats_vector_count_eq idx (get_user_namespace u), rfl⟩
  · exact foldl_indexUpsert_ne _ ns2 hns _ idx
  · cases delete_all with
    | true =>
      rw [delete_embeddings_snd_all u ids filter idx]
      exact nsLookup_nsUpdate_ne idx _ ns2 _ hns
    | false =>
      by_cases hids : (ids.getD []) = []
      · cases filter with
        | some p =>
          rw [delete_embeddings_snd_filter u ids p idx hids]
          exact nsLookup_nsUpdate_ne idx _ ns2 _ hns
        | none => rw [delete_embeddings_snd_noop u ids idx hids]
      · rw [delete_embeddings_snd_ids u ids filter idx hids]
        exact nsLookup_nsUpdate_ne idx _ ns2 _ hns
  · simp only [query_embeddings, hagree]
  · simp only [upsert_embeddings]
    rw [foldl_indexUpsert_same, foldl_indexUpsert_same, hagree]
  · cases delete_all with
    | true =>
      rw [delete_embeddings_snd_all u ids filter idx1,
        delete_embeddings_snd_all u ids filter idx2,
        nsLookup_nsUpdate_same, nsLookup_nsUpdate_same]
    | false =>
      by_cases hids : (ids.getD []) = []
      · cases filter with
        | some p =>
          rw [delete_embeddings_snd_filter u ids p idx1 hids,
            delete_embeddings_snd_filter u ids p idx2 hids,
            nsLookup_nsUpdate_same, nsLookup_nsUpdate_same, hagree]
        | none =>
          rw [delete_embeddings_snd_noop u ids idx1 hids,
            delete_embeddings_snd_noop u ids idx2 hids]
          exact hagree
      · rw [delete_embeddings_snd_ids u ids filter idx1 hids,
          delete_embeddings_snd_ids u ids filter idx2 hids,
          nsLookup_nsUpdate_same, nsLookup_nsUpdate_same, hagree]

theorem claim_C3_namespace_isolation_witness :
    nsLookup (upsert_embeddings "u" [⟨"a", (), default⟩] 100
      ([("user_u", []), ("user_v", [⟨"w", (), default⟩])] : PineIndex Unit)).2 "user_v" =
      nsLookup ([("user_u", []), ("user_v", [⟨"w", (), default⟩])] : PineIndex Unit) "user_v" ∧
    (get_namespace_stats "u"
      ([("user_u", []), ("user_v", [⟨"w", (), default⟩])] : PineIndex Unit)).vector_count =
      (nsLookup ([("user_u", []), ("user_v", [⟨"w", (), default⟩])] : PineIndex Unit)
        "user_u").length := by
  have h := claim_C3_namespace_isolation (V := Unit) "u" "user_v" (by decide)
    [⟨"a", (), default⟩]
    [("user_u", []), ("user_v", [⟨"w", (), default⟩])]
    [("user_u", []), ("user_v", [⟨"w", (), default⟩])]
    [("user_u", []), ("user_v", [⟨"w", (), default⟩])]
    rfl (fun _ _ _ _ => Except.ok []) () 5 none true none false
  exact ⟨h.1, h.2.2.2.2.2.1⟩

/- ===== ChatHistoryService (src/app/services/chat_history.py) =====
   The MongoDB `chat_sessions` collection is modelled as a list of session
   documents; `datetime.utcnow()` enters as an explicit `now` clock value. -/

structure SourceCite where
  filename : Option String
  score : ℚ
  text_preview : String
deriving DecidableEq

structure Msg where
  role : String
  content : String
  timestamp : Nat
  sources : Option (List SourceCite)
deriving DecidableEq

structure SessionDoc where
  id : String
  user_id : String
  title : String
  created_at : Nat
  updated_at : Nat
  messages : List Msg
deriving DecidableEq

abbrev SessionStore := List SessionDoc

def isHexChar (c : Char) : Bool :=
  c.isDigit || (('a' ≤ c) && (c ≤ 'f')) || (('A' ≤ c) && (c ≤ 'F'))

/-- Validity of `bson.ObjectId(session_id)`: construction succeeds exactly on a 24-character hex string;
on anything else it raises, which the `try/except` in the service turns into
the not-found / no-op result. -/
def isValidObjectId (s : String) : Bool :=
  (s.length == 24) && s.data.all isHexChar

/-- Model of `ChatHistoryService.get_session` (src/app/services/chat_history.py 42-54):
`find_one({"_id": ObjectId(session_id), "user_id": user_id})`; an invalid id
raises inside the `try` and also yields the not-found result. -/
def get_session (store : SessionStore) (session_id user_id : String) :
    Option SessionDoc :=
  if isValidObjectId session_id then
    store.find? (fun d => d.id == session_id && d.user_id == user_id)
  else none

/-- Mongo `update_one`: modify the first matching document, if any. -/
def updateFirst {α : Type} (p : α → Bool) (f : α → α) : List α → List α
  | [] => []
  | d :: ds => if p d then f d :: ds else d :: updateFirst p f ds

/-- Model of `ChatHistoryService.add_message` (src/app/services/chat_history.py 56-71):
one atomic update pushing the message and bumping `updated_at` on the
owner-matched session; a no-op (with a logged warning) when no session/owner
pair matches or the id is invalid. -/
def add_message (store : SessionStore) (session_id user_id : String)
    (message : Msg) (now : Nat) : SessionStore :=
  if isValidObjectId session_id then
    updateFirst (fun d => d.id == session_id && d.user_id == user_id)
      (fun d => { d with messages := d.messages ++ [message], updated_at := now })
      store
  else store

/-- C5: a session owned by `u1` is invisible to any other user `u2`:
`get_session` returns the same not-found result (`none`) it returns for a
session id that exists nowhere in the store, so existence is never
revealed. -/
theorem claim_C5_ownership_masking (store : SessionStore)
    (sid u1 u2 bogus : String) (d0 : SessionDoc)
    (_hmem : d0 ∈ store) (_hid : d0.id = sid) (_hu1 : d0.user_id = u1)
    (hown : ∀ d ∈ store, d.id = sid → d.user_id = u1)
    (hne : u2 ≠ u1)
    (hbogus : ∀ d ∈ store, d.id ≠ bogus) :
    get_session store sid u2 = none ∧
    get_session store bogus u2 = none ∧
    get_session store sid u2 = get_session store bogus u2 := by
  have key : ∀ (s : String),
      (∀ d ∈ store, (d.id == s && d.user_id == u2) = false) →
      get_session store s u2 = none := by
    intro s hall
    unfold get_session
    by_cases hv : isValidObjectId s
    · rw [if_pos hv]
      apply List.find?_eq_none.mpr
      intro d hd
      simp [hall d hd]
    · rw [if_neg hv]
  have hsid : ∀ d ∈ store, (d.id == sid && d.user_id == u2) = false := by
    intro d hd
    by_cases h : d.id = sid
    · have hu := hown d hd h
      have : d.user_id ≠ u2 := by rw [hu]; exact fun hc => hne hc.symm
      simp [this]
    · simp [h]
  have hbog : ∀ d ∈ store, (d.id == bogus && d.user_id == u2) = false := by
    intro d hd
    simp [hbogus d hd]
  exact ⟨key sid hsid, key bogus hbog, by rw [key sid hsid, key bogus hbog]⟩

theorem claim_C5_ownership_masking_witness :
    get_session [⟨"abcdefabcdefabcdefabcdef", "u1", "chat", 0, 0, []⟩]
      "abcdefabcdefabcdefabcdef" "u2" = none ∧
    get_session [⟨"abcdefabcdefabcdefabcdef", "u1", "chat", 0, 0, []⟩]
      "000000000000000000000000" "u2" = none ∧
    get_session [⟨"abcdefabcdefabcdefabcdef", "u1", "chat", 0, 0, []⟩]
      "abcdefabcdefabcdefabcdef" "u2" =
      get_session [⟨"abcdefabcdefabcdefabcdef", "u1", "chat", 0, 0, []⟩]
        "000000000000000000000000" "u2" := by
  exact claim_C5_ownership_masking
    [⟨"abcdefabcdefabcdefabcdef", "u1", "chat", 0, 0, []⟩]
    "abcdefabcdefabcdefabcdef" "u1" "u2" "000000000000000000000000"
    ⟨"abcdefabcdefabcdefabcdef", "u1", "chat", 0, 0, []⟩
    (by decide) rfl rfl (by decide) (by decide) (by decide)

/- ===== RAGChain (src/app/rag/chain.py) and the chat endpoints
   (src/app/api/v1/chat.py) =====
   The LLM backend (buffered invoke and streaming) is an external
   collaborator in `RagDeps`, alongside the embedding model and the ANN
   search.  `history_session` in the LLM input records whether the chain ran
   with per-session history (`chain_with_history`) or the stateless fallback
   with empty history; the langchain-managed `chat_history` collection that
   backs that history is a separate store from `chat_sessions` and is outside
   the claims modelled here. -/

structure TokenCounts where
  prompt : Nat
  completion : Nat
  total : Nat
deriving DecidableEq

structure LLMInput where
  question : String
  context : String
  system_prompt : String
  history_session : Option String
deriving DecidableEq

structure LLMResponse where
  content : String
  token_usage : Option TokenCounts
deriving DecidableEq

structure RagDeps (V : Type) where
  encode : String → V
  search : List (VecRecord V) → V → Nat → Option (Metadata → Bool) →
    Except String (List PineMatch)
  llm : LLMInput → LLMResponse
  llmStreamChunks : LLMInput → List String

/-- Python `x or y` for an optional string `x` (falsy = absent or empty). -/
def pyOrStr (x : Option String) (y : String) : String :=
  match x with
  | some s => if s = "" then y else s
  | none => y

/-- Python `x or y` when both operands are optional strings. -/
def pyOrOpt (x y : Option String) : Option String :=
  match x with
  | some s => if s = "" then y else some s
  | none => y

/-- Python `sep.join(parts)`. -/
def pyJoin (sep : String) : List String → String
  | [] => ""
  | [a] => a
  | a :: b :: l => a ++ sep ++ pyJoin sep (b :: l)

def formatHundredths (n : Nat) : String :=
  (if n < 10 then "0" else "") ++ toString n

/-- Two-decimal fixed-point rendering of the relevance score, modelling the
f-string `{score:.2f}` on the exact-rational model of the float score. -/
def formatScore2 (q : ℚ) : String :=
  let c : Int := round (q * 100)
  (if c < 0 then "-" else "") ++
    toString (c.natAbs / 100) ++ "." ++ formatHundredths (c.natAbs % 100)

/-- Model of `RAGChain._build_context_prompt` (src/app/rag/chain.py 92-108): the fixed
sentinel on zero results, else one numbered block per result in the given
order, joined by a blank line. -/
def build_context_prompt (results : List QueryResult) : String :=
  if results = [] then "No relevant documents found."
  else
    pyJoin "\n\n" ((results.enumFrom 1).map (fun p =>
      let metadata := p.2.metadata.getD default
      let text := metadata.text.getD ""
      let source := pyOrStr metadata.filename (metadata.source.getD "Unknown")
      "[Source " ++ toString p.1 ++ ": " ++ source ++ " (relevance: " ++
        formatScore2 p.2.score ++ ")]\n" ++ text))

/-- One rendered block as the spec words it: bracketed numbered source label
(filename, else metadata source field, else "Unknown"), the relevance score to
two decimals, then the stored text preview on the next line. -/
def specContextBlock (i : Nat) (r : QueryResult) : String :=
  let metadata := r.metadata.getD default
  "[Source " ++ toString i ++ ": " ++
    pyOrStr metadata.filename (metadata.source.getD "Unknown") ++
    " (relevance: " ++ formatScore2 r.score ++ ")]\n" ++ metadata.text.getD ""

/-- Spec-side rendering: the blocks numbered consecutively from `i`, in the
order given (no re-sorting), separated by one blank line. -/
def specRenderBlocks : Nat → List QueryResult → String
  | _, [] => ""
  | i, [r] => specContextBlock i r
  | i, r :: r2 :: rs =>
    specContextBlock i r ++ "\n\n" ++ specRenderBlocks (i + 1) (r2 :: rs)

/-- Model of `RAGChain._retrieve_context` (src/app/rag/chain.py 70-90): embed the
query, then search the namespace of the caller. -/
def retrieve_context {V : Type} (deps : RagDeps V) (idx : PineIndex V)
    (user_id query : String) (top_k : Nat) (filter : Option (Metadata → Bool)) :
    Except String (List QueryResult) := do
  let query_embedding ← generate_embedding deps.encode query
  query_embeddings deps.search user_id query_embedding top_k filter true idx

/-- The default system prompt (src/app/rag/chain.py 130-131). -/
def defaultSystemPrompt : String :=
  "You are a helpful assistant that answers questions based on the provided context. \n            Answer based ONLY on the provided context. If the context doesn\x27t contain relevant information, say so clearly."

/-- The `sources` citation list built from the ranked results
(src/app/rag/chain.py 158-165). -/
def mkSources (results : List QueryResult) : List SourceCite :=
  results.map (fun r =>
    let md := r.metadata.getD default
    { filename := pyOrOpt md.filename md.source,
      score := r.score,
      text_preview := (md.text.getD "").take 200 })

structure RagResponse where
  answer : String
  sources : List SourceCite
  tokens_used : TokenCounts
deriving DecidableEq

/-- Model of `RAGChain.query` (src/app/rag/chain.py 110-197): retrieve, build context,
invoke the LLM once (with per-session history when `session_id` is given,
else the stateless fallback with empty history), then persist the
user/assistant pair — only when a `session_id` was supplied.  A failing
embedding or retrieval propagates before the LLM call and before any write:
the store comes back unchanged. -/
def ragQuery {V : Type} (deps : RagDeps V) (idx : PineIndex V)
    (store : SessionStore) (now : Nat) (user_id query : String) (top_k : Nat)
    (filter : Option (Metadata → Bool)) (system_prompt : Option String)
    (session_id : Option String) : Except String RagResponse × SessionStore :=
  match retrieve_context deps idx user_id query top_k filter with
  | Except.error e => (Except.error e, store)
  | Except.ok results =>
    let context := build_context_prompt results
    let sp := pyOrStr system_prompt defaultSystemPrompt
    let input : LLMInput := ⟨query, context, sp, session_id⟩
    let response := deps.llm input
    let answer := response.content
    let sources := mkSources results
    let store2 := match session_id with
      | some sid =>
        let store1 := add_message store sid user_id ⟨"user", query, now, none⟩ now
        add_message store1 sid user_id ⟨"assistant", answer, now, some sources⟩ now
      | none => store
    (Except.ok
      { answer := answer,
        sources := sources,
        tokens_used := (response.token_usage).getD ⟨0, 0, 0⟩ },
     store2)

/-- Model of `RAGChain.query_stream` (src/app/rag/chain.py 199-275): the same pipeline
consumed as a stream; empty chunks are skipped (`if chunk.content:`), the full
answer is re-accumulated from the yielded chunks, and persistence again
happens only when a `session_id` was supplied. -/
def ragQueryStream {V : Type} (deps : RagDeps V) (idx : PineIndex V)
    (store : SessionStore) (now : Nat) (user_id query : String) (top_k : Nat)
    (filter : Option (Metadata → Bool)) (system_prompt : Option String)
    (session_id : Option String) :
    Except String (List String × SessionStore) :=
  match retrieve_context deps idx user_id query top_k filter with
  | Except.error e => Except.error e
  | Except.ok results =>
    let context := build_context_prompt results
    let sp := pyOrStr system_prompt defaultSystemPrompt
    let input : LLMInput := ⟨query, context, sp, session_id⟩
    let chunks := (deps.llmStreamChunks input).filter (fun c => c != "")
    let full_response := String.join chunks
    let store2 := match session_id with
      | some sid =>
        let sources := mkSources results
        let store1 := add_message store sid user_id ⟨"user", query, now, none⟩ now
        add_message store1 sid user_id
          ⟨"assistant", full_response, now, some sources⟩ now
      | none => store
    Except.ok (chunks, store2)

structure ChatRequest where
  query : String
  top_k : Nat
  filter : Option (Metadata → Bool)
  system_prompt : Option String
  session_id : Option String

/-- One server-sent event payload: `done` is an optional key of the JSON
object, present only when the code put it there. -/
structure SSEEvent where
  content : String
  done : Option Bool
deriving DecidableEq

/-- The value of `rag_chain.query_stream(...)` at src/app/api/v1/chat.py line
89: `query_stream` is an `async def` containing `yield`, so calling it builds
an async generator object without running its body — never a plain (sync)
iterable of fragments. -/
inductive StreamCallResult where
  | asyncGenerator
  | syncIterable (chunks : List String)

/-- Python semantics of the plain `for chunk in agen:` statement: iteration
calls `iter(agen)`, and an async generator object has no `__iter__`, so the
loop raises `TypeError` before the generator body — and hence the embedding,
retrieval and generation steps — can ever run.  Only a plain iterable would
let the loop consume fragments. -/
def pyPlainForIter : StreamCallResult → Except String (List String)
  | StreamCallResult.asyncGenerator =>
    Except.error "\x27async_generator\x27 object is not iterable"
  | StreamCallResult.syncIterable chunks => Except.ok chunks

/-- Model of `stream_query` (src/app/api/v1/chat.py 68-120).  The handler
persists the user message first (when a session id was given, lines 80-85)
and returns the streaming response; its `except` at line 118 is not reached
later, because `generate()` only runs while the response is being consumed.
`generate()` (lines 87-107) then starts with `for chunk in
rag_chain.query_stream(...)` — a plain `for` over the async generator — which
raises before any event: the stream aborts with no fragment event, no
terminator, and no assistant write.  Had the loop received a plain iterable,
it would emit one `{"content": chunk}` event per fragment (no `done` key),
the single `{"content": "", "done": true}` terminator, and then persist the
accumulated assistant message. -/
def stream_query {V : Type} (_deps : RagDeps V) (_idx : PineIndex V)
    (store : SessionStore) (now : Nat) (request : ChatRequest)
    (user_id : String) : Except String (List SSEEvent) × SessionStore :=
  let store0 := match request.session_id with
    | some sid => add_message store sid user_id ⟨"user", request.query, now, none⟩ now
    | none => store
  match pyPlainForIter StreamCallResult.asyncGenerator with
  | Except.error e => (Except.error e, store0)
  | Except.ok chunks =>
    let events := chunks.map (fun c => SSEEvent.mk c none) ++
      [SSEEvent.mk "" (some true)]
    let store2 := match request.session_id with
      | some sid => add_message store0 sid user_id
          ⟨"assistant", String.join chunks, now, none⟩ now
      | none => store0
    (Except.ok events, store2)

/-- The value bound to `result` at src/app/api/v1/chat.py line 30: the call
`rag_chain.query(...)` is not awaited, so `result` is the coroutine object
itself — never the dict an awaited call would produce. -/
inductive QueryCallResult where
  | coroutine
  | dict (r : RagResponse)

/-- Python semantics of the first subscript `result["answer"]`: subscripting a
coroutine object raises `TypeError`; subscripting the awaited response dict
yields its contents. -/
def pyIndexResult : QueryCallResult → Except String RagResponse
  | QueryCallResult.coroutine =>
    Except.error "\x27coroutine\x27 object is not subscriptable"
  | QueryCallResult.dict r => Except.ok r

inductive ChatEndpointOutcome where
  | success (r : RagResponse)
  | httpError (status : Nat) (detail : String)
deriving DecidableEq

/-- Model of `query_documents` (src/app/api/v1/chat.py 18-65): inside the `try`, bind
the un-awaited coroutine (line 30), persist the user message when a session id
was given (line 41), then evaluate the first `result[...]` subscript (line 52
with a session, line 57 without); the raised TypeError reaches the `except`
handler, which answers HTTP 500 with the stringified error. -/
def query_documents (store : SessionStore) (now : Nat) (request : ChatRequest)
    (user_id : String) : ChatEndpointOutcome × SessionStore :=
  let result := QueryCallResult.coroutine
  match request.session_id with
  | some sid =>
    let store1 := add_message store sid user_id ⟨"user", request.query, now, none⟩ now
    match pyIndexResult result with
    | Except.error e =>
      (ChatEndpointOutcome.httpError 500 ("Failed to process query: " ++ e), store1)
    | Except.ok r =>
      let store2 := add_message store1 sid user_id
        ⟨"assistant", r.answer, now, some r.sources⟩ now
      (ChatEndpointOutcome.success r, store2)
  | none =>
    match pyIndexResult result with
    | Except.error e =>
      (ChatEndpointOutcome.httpError 500 ("Failed to process query: " ++ e), store)
    | Except.ok r => (ChatEndpointOutcome.success r, store)

/-- C10: the buffered chat endpoint can never answer: the handler binds the
un-awaited coroutine, its first subscript raises, and every request ends in
the except-handler with HTTP 500, for any store, clock, request and user. -/
theorem claim_C10_buffered_endpoint_always_500 (store : SessionStore) (now : Nat)
    (request : ChatRequest) (user_id : String) :
    (query_documents store now request user_id).1 =
      ChatEndpointOutcome.httpError 500
        ("Failed to process query: " ++
          "\x27coroutine\x27 object is not subscriptable") := by
  unfold query_documents
  cases request.session_id <;> rfl

/-- Concrete external collaborators used to evaluate the pipeline on closed
inputs: a unit embedding, an ANN search returning no match, an LLM answering
"ok" buffered and as a single fragment. -/
def trivialDeps : RagDeps Unit :=
  { encode := fun _ => (),
    search := fun _ _ _ _ => Except.ok [],
    llm := fun _ => ⟨"ok", none⟩,
    llmStreamChunks := fun _ => ["ok"] }

/-- Same embedding and search as `trivialDeps`, different LLM backend. -/
def trivialDeps2 : RagDeps Unit :=
  { trivialDeps with
    llm := fun _ => ⟨"different answer", some ⟨1, 2, 3⟩⟩,
    llmStreamChunks := fun _ => ["different"] }

/-- C1 as stated is false: a query with no session id synthesizes no session
at all — running `RAGChain.query` against an empty session store leaves the
store empty (no session titled from the query exists, and no user/assistant
pair was persisted anywhere), while the call itself succeeds. -/
theorem claim_C1_counterexample :
    (ragQuery trivialDeps [] [] 0 "u1" "What color is the sky?" 5 none none none).2
        = [] ∧
    (ragQuery trivialDeps [] [] 0 "u1" "What color is the sky?" 5 none none none).1
        = Except.ok ⟨"ok", [], ⟨0, 0, 0⟩⟩ :=
  ⟨rfl, rfl⟩

theorem add_message_head (d0 : SessionDoc) (rest : SessionStore)
    (sid uid : String) (m : Msg) (now : Nat)
    (hvalid : isValidObjectId sid = true)
    (hid : d0.id = sid) (huid : d0.user_id = uid) :
    add_message (d0 :: rest) sid uid m now =
      { d0 with messages := d0.messages ++ [m], updated_at := now } :: rest := by
  unfold add_message updateFirst
  rw [if_pos hvalid, if_pos (by simp [hid, huid])]

/-- C1 amended: `RAGChain.query` never synthesizes a session.  With no
session id it runs the stateless fallback and persists nothing — the store is
returned unchanged; when a session id is supplied, the user message and then
the assistant message (the LLM answer with its citation list) are appended to
that session, with its `updated_at` bumped. -/
theorem claim_C1_no_session_no_persistence {V : Type} (deps : RagDeps V)
    (idx : PineIndex V) (store : SessionStore) (now : Nat)
    (user_id query : String) (top_k : Nat) (filter : Option (Metadata → Bool))
    (system_prompt : Option String) (sid : String) (d0 : SessionDoc)
    (rest : SessionStore) (hstore : store = d0 :: rest)
    (hid : d0.id = sid) (huid : d0.user_id = user_id)
    (hvalid : isValidObjectId sid = true) (results : List QueryResult)
    (hret : retrieve_context deps idx user_id query top_k filter =
      Except.ok results) :
    (ragQuery deps idx store now user_id query top_k filter system_prompt none).2
        = store ∧
    (ragQuery deps idx store now user_id query top_k filter system_prompt
        (some sid)).2 =
      { d0 with
          messages := d0.messages ++
            [⟨"user", query, now, none⟩,
             ⟨"assistant",
               (deps.llm ⟨query, build_context_prompt results,
                 pyOrStr system_prompt defaultSystemPrompt, some sid⟩).content,
               now, some (mkSources results)⟩],
          updated_at := now } :: rest := by
  constructor
  · simp only [ragQuery, hret]
  · simp only [ragQuery, hret, hstore]
    rw [add_message_head d0 rest sid user_id _ now hvalid hid huid]
    rw [add_message_head _ rest sid user_id _ now hvalid (by simpa using hid)
      (by simpa using huid)]
    simp

theorem claim_C1_no_session_no_persistence_witness :
    (ragQuery trivialDeps [] [⟨"abcdefabcdefabcdefabcdef", "u1", "chat", 0, 0, []⟩]
        7 "u1" "hello" 5 none none none).2 =
      [⟨"abcdefabcdefabcdefabcdef", "u1", "chat", 0, 0, []⟩] ∧
    (ragQuery trivialDeps [] [⟨"abcdefabcdefabcdefabcdef", "u1", "chat", 0, 0, []⟩]
        7 "u1" "hello" 5 none none (some "abcdefabcdefabcdefabcdef")).2 =
      [{ (⟨"abcdefabcdefabcdefabcdef", "u1", "chat", 0, 0, []⟩ : SessionDoc) with
          messages := ([] : List Msg) ++
            [⟨"user", "hello", 7, none⟩,
             ⟨"assistant",
               (trivialDeps.llm ⟨"hello", build_context_prompt [],
                 pyOrStr none defaultSystemPrompt,
                 some "abcdefabcdefabcdefabcdef"⟩).content,
               7, some (mkSources [])⟩],
          updated_at := 7 }] := by
  exact claim_C1_no_session_no_persistence trivialDeps [] _ 7 "u1" "hello" 5 none
    none "abcdefabcdefabcdefabcdef" ⟨"abcdefabcdefabcdefabcdef", "u1", "chat", 0, 0, []⟩
    [] rfl rfl rfl (by decide) [] rfl

/-- C2: wherever the embedding or retrieval step actually runs — the engine
methods `RAGChain.query` and `RAGChain.query_stream` — its failure aborts the
pipeline before any generation call (the outcome is independent of the LLM
collaborator) and before any persistence: the store comes back unchanged,
with neither a user nor an assistant message appended.  The HTTP endpoints
never even reach the embedding step (the buffered handler never awaits the
pipeline coroutine, and the streaming generator dies on the plain `for` over
the async generator before the pipeline body runs), so no endpoint request
can exhibit an embedding or retrieval failure at all: the streaming endpoint
outcome is independent of every pipeline collaborator. -/
theorem claim_C2_abort_before_persistence {V : Type} (deps deps2 : RagDeps V)
    (idx : PineIndex V) (store : SessionStore) (now : Nat)
    (user_id query : String) (top_k : Nat) (filter : Option (Metadata → Bool))
    (system_prompt : Option String) (session_id : Option String)
    (request : ChatRequest) (e : String)
    (hfail : retrieve_context deps idx user_id query top_k filter = Except.error e)
    (henc : deps2.encode = deps.encode) (hsearch : deps2.search = deps.search) :
    ragQuery deps idx store now user_id query top_k filter system_prompt session_id =
      (Except.error e, store) ∧
    ragQueryStream deps idx store now user_id query top_k filter system_prompt
      session_id = Except.error e ∧
    ragQuery deps2 idx store now user_id query top_k filter system_prompt session_id =
      ragQuery deps idx store now user_id query top_k filter system_prompt
        session_id ∧
    stream_query deps idx store now request user_id =
      stream_query deps2 idx store now request user_id := by
  have hfail2 : retrieve_context deps2 idx user_id query top_k filter =
      Except.error e := by
    show (do
      let query_embedding ← generate_embedding deps2.encode query
      query_embeddings deps2.search user_id query_embedding top_k filter true idx) =
        Except.error e
    rw [henc, hsearch]
    exact hfail
  refine ⟨by simp only [ragQuery, hfail], by simp only [ragQueryStream, hfail], ?_, rfl⟩
  simp only [ragQuery, hfail, hfail2]

theorem claim_C2_abort_before_persistence_witness :
    ragQuery trivialDeps [] [⟨"abcdefabcdefabcdefabcdef", "u1", "chat", 0, 0, []⟩]
        7 "u1" " " 5 none none (some "abcdefabcdefabcdefabcdef") =
      (Except.error "Cannot generate embedding for empty text",
        [⟨"abcdefabcdefabcdefabcdef", "u1", "chat", 0, 0, []⟩]) ∧
    ragQueryStream trivialDeps [] [⟨"abcdefabcdefabcdefabcdef", "u1", "chat", 0, 0, []⟩]
        7 "u1" " " 5 none none (some "abcdefabcdefabcdefabcdef") =
      Except.error "Cannot generate embedding for empty text" ∧
    ragQuery trivialDeps2 [] [⟨"abcdefabcdefabcdefabcdef", "u1", "chat", 0, 0, []⟩]
        7 "u1" " " 5 none none (some "abcdefabcdefabcdefabcdef") =
      ragQuery trivialDeps [] [⟨"abcdefabcdefabcdefabcdef", "u1", "chat", 0, 0, []⟩]
        7 "u1" " " 5 none none (some "abcdefabcdefabcdefabcdef") ∧
    stream_query trivialDeps [] [⟨"abcdefabcdefabcdefabcdef", "u1", "chat", 0, 0, []⟩]
        7 ⟨" ", 5, none, none, some "abcdefabcdefabcdefabcdef"⟩ "u1" =
      stream_query trivialDeps2 [] [⟨"abcdefabcdefabcdefabcdef", "u1", "chat", 0, 0, []⟩]
        7 ⟨" ", 5, none, none, some "abcdefabcdefabcdefabcdef"⟩ "u1" := by
  exact claim_C2_abort_before_persistence trivialDeps trivialDeps2 []
    [⟨"abcdefabcdefabcdefabcdef", "u1", "chat", 0, 0, []⟩] 7 "u1" " " 5 none none
    (some "abcdefabcdefabcdefabcdef")
    ⟨" ", 5, none, none, some "abcdefabcdefabcdefabcdef"⟩
    "Cannot generate embedding for empty text" rfl rfl rfl

theorem build_context_prompt_spec :
    ∀ (i : Nat) (r : QueryResult) (rs : List QueryResult),
    pyJoin "\n\n" (((r :: rs).enumFrom i).map (fun p => specContextBlock p.1 p.2)) =
      specRenderBlocks i (r :: rs) := by
  intro i r rs
  induction rs generalizing i r with
  | nil => rfl
  | cons r2 rs ih =>
    have hhead : ((r :: r2 :: rs).enumFrom i).map (fun p => specContextBlock p.1 p.2) =
        specContextBlock i r ::
          ((r2 :: rs).enumFrom (i + 1)).map (fun p => specContextBlock p.1 p.2) := rfl
    have htail : ((r2 :: rs).enumFrom (i + 1)).map (fun p => specContextBlock p.1 p.2) =
        specContextBlock (i + 1) r2 ::
          (rs.enumFrom (i + 2)).map (fun p => specContextBlock p.1 p.2) := rfl
    rw [hhead, htail]
    show specContextBlock i r ++ "\n\n" ++
      pyJoin "\n\n" (specContextBlock (i + 1) r2 ::
        (rs.enumFrom (i + 2)).map (fun p => specContextBlock p.1 p.2)) =
      specRenderBlocks i (r :: r2 :: rs)
    rw [← htail, ih (i + 1) r2]
    rfl

/-- C4: zero retrieval results give exactly the fixed sentinel context and the
generation step still runs (the pipeline returns the LLM answer computed over
the sentinel context — no early exit, empty citation list); non-empty results
are rendered as consecutively numbered blocks in the given order, each with
the source label (filename, else source field, else "Unknown"), the
two-decimal relevance and the stored preview, joined by one blank line. -/
theorem claim_C4_context_rendering {V : Type} (rs : List QueryResult)
    (r0 : QueryResult) (rrest : List QueryResult) (hrs : rs = r0 :: rrest)
    (deps : RagDeps V) (idx : PineIndex V) (store : SessionStore) (now : Nat)
    (user_id query : String) (top_k : Nat) (filter : Option (Metadata → Bool))
    (hret : retrieve_context deps idx user_id query top_k filter = Except.ok []) :
    build_context_prompt [] = "No relevant documents found." ∧
    build_context_prompt rs = specRenderBlocks 1 rs ∧
    (ragQuery deps idx store now user_id query top_k filter none none).1 =
      Except.ok
        { answer := (deps.llm ⟨query, "No relevant documents found.",
            defaultSystemPrompt, none⟩).content,
          sources := [],
          tokens_used := ((deps.llm ⟨query, "No relevant documents found.",
            defaultSystemPrompt, none⟩).token_usage).getD ⟨0, 0, 0⟩ } := by
  refine ⟨rfl, ?_, ?_⟩
  · subst hrs
    exact build_context_prompt_spec 1 r0 rrest
  · simp only [ragQuery, hret]
    rfl

theorem claim_C4_context_rendering_witness :
    build_context_prompt [] = "No relevant documents found." ∧
    build_context_prompt
        [⟨"id1", (1 : ℚ)/2, some ⟨some "f.txt", none, some "hello",⟩⟩,
         ⟨"id2", (1 : ℚ)/4, some ⟨none, some "pasted", some "world"⟩⟩] =
      specRenderBlocks 1
        [⟨"id1", (1 : ℚ)/2, some ⟨some "f.txt", none, some "hello"⟩⟩,
         ⟨"id2", (1 : ℚ)/4, some ⟨none, some "pasted", some "world"⟩⟩] ∧
    (ragQuery trivialDeps [] [] 0 "u1" "q" 5 none none none).1 =
      Except.ok
        { answer := (trivialDeps.llm ⟨"q", "No relevant documents found.",
            defaultSystemPrompt, none⟩).content,
          sources := [],
          tokens_used := ((trivialDeps.llm ⟨"q", "No relevant documents found.",
            defaultSystemPrompt, none⟩).token_usage).getD ⟨0, 0, 0⟩ } := by
  exact claim_C4_context_rendering
    [⟨"id1", (1 : ℚ)/2, some ⟨some "f.txt", none, some "hello"⟩⟩,
     ⟨"id2", (1 : ℚ)/4, some ⟨none, some "pasted", some "world"⟩⟩]
    ⟨"id1", (1 : ℚ)/2, some ⟨some "f.txt", none, some "hello"⟩⟩
    [⟨"id2", (1 : ℚ)/4, some ⟨none, some "pasted", some "world"⟩⟩] rfl
    trivialDeps [] [] 0 "u1" "q" 5 none rfl

/-- C9 describes the intended streaming shape, but the code cannot exhibit
it: the response generator iterates the async generator
`rag_chain.query_stream(...)` with a plain `for`
(src/app/api/v1/chat.py 89), which raises `TypeError` at its very first
step.  Every streaming request therefore aborts with zero events — no
fragment event, no `{content: "", done: true}` terminator — and the only
persisted write is the user message saved before the generator ran. -/
theorem claim_C9_stream_endpoint_never_streams {V : Type} (deps : RagDeps V)
    (idx : PineIndex V) (store : SessionStore) (now : Nat)
    (request : ChatRequest) (user_id : String) :
    (stream_query deps idx store now request user_id).1 =
      Except.error "\x27async_generator\x27 object is not iterable" ∧
    (stream_query deps idx store now request user_id).2 =
      (match request.session_id with
        | some sid =>
          add_message store sid user_id ⟨"user", request.query, now, none⟩ now
        | none => store) := by
  obtain ⟨q, tk, fl, sp, sess⟩ := request
  cases sess <;> exact ⟨rfl, rfl⟩
